import Mathlib

/-!
Shallow embedding of the orbital-mechanics core (`OrbitalMechanics.cpp`,
class `UOrbitalMechanics`) of the Luna repository, together with proofs
settling the specification claims about it.
Floating-point arithmetic of the source is modelled over the reals; the
Unreal `FVector` type is modelled by `Vec3`; each member function of
`UOrbitalMechanics` that the claims mention is translated into a Lean
definition of the same name, reading and writing an explicit `OrbState`
record in place of the component's mutable members.
-/

set_option maxHeartbeats 1000000

noncomputable section

namespace Luna


/-- Model of Unreal's `FVector`: a 3-vector of reals. -/
@[ext]
structure Vec3 where
  x : ℝ
  y : ℝ
  z : ℝ

/-- `FVector::ZeroVector`. -/
def Vec3.zero : Vec3 := ⟨0, 0, 0⟩

/-- Componentwise addition (`FVector::operator+`). -/
def Vec3.add (a b : Vec3) : Vec3 := ⟨a.x + b.x, a.y + b.y, a.z + b.z⟩

instance : Add Vec3 := ⟨Vec3.add⟩

/-- Componentwise subtraction (`FVector::operator-`). -/
def Vec3.sub (a b : Vec3) : Vec3 := ⟨a.x - b.x, a.y - b.y, a.z - b.z⟩

instance : Sub Vec3 := ⟨Vec3.sub⟩

/-- Scalar multiple (`FVector::operator*(float)`). -/
def Vec3.scale (v : Vec3) (c : ℝ) : Vec3 := ⟨v.x * c, v.y * c, v.z * c⟩

/-- `FVector::operator-()` (negation). -/
def Vec3.neg (v : Vec3) : Vec3 := v.scale (-1)

/-- `FVector::DotProduct`. -/
def Vec3.dot (a b : Vec3) : ℝ := a.x * b.x + a.y * b.y + a.z * b.z

/-- `FVector::CrossProduct`. -/
def Vec3.cross (a b : Vec3) : Vec3 :=
  ⟨a.y * b.z - a.z * b.y, a.z * b.x - a.x * b.z, a.x * b.y - a.y * b.x⟩

/-- `FVector::SizeSquared`. -/
def Vec3.sizeSquared (v : Vec3) : ℝ := v.x * v.x + v.y * v.y + v.z * v.z

/-- `FVector::Size` (Euclidean norm). -/
def Vec3.size (v : Vec3) : ℝ := Real.sqrt v.sizeSquared

/-- `FVector::GetSafeNormal` with the default tolerance `SMALL_NUMBER = 1e-8`:
returns the zero vector when the squared size is below the tolerance,
otherwise the vector divided by its size. -/
def Vec3.getSafeNormal (v : Vec3) : Vec3 :=
  if v.sizeSquared < 1e-8 then Vec3.zero else v.scale (1 / v.size)

/-- Componentwise `FVector::operator/(float)`. -/
def Vec3.div (v : Vec3) (c : ℝ) : Vec3 := ⟨v.x / c, v.y / c, v.z / c⟩

/-- `GravitationalConstant = 6.67430e-11f` set in the `UOrbitalMechanics`
constructor. -/
def GravitationalConstant : ℝ := 6.67430e-11

/-- `EarthMass = 5.972e24f` set in the constructor. -/
def EarthMass : ℝ := 5.972e24

/-- `EarthRadius = 6371000.0f` set in the constructor. -/
def EarthRadius : ℝ := 6371000

/-- The gravitational parameter `GravitationalConstant * EarthMass` as the
source uses it throughout. -/
def muEarth : ℝ := GravitationalConstant * EarthMass

/-- `FTransferOrbit` as populated by `CalculateOrbitalTransfer`. -/
structure FTransferOrbit where
  SemiMajorAxis : ℝ
  Eccentricity : ℝ
  TransferTime : ℝ
  DeltaV : ℝ

/-- `UOrbitalMechanics::CalculateOrbitalTransfer`, expressed over the two
radii `R1 = CurrentPosition.Size()` and `R2 = TargetPosition.Size()` that are
the only data of its arguments it reads. -/
def CalculateOrbitalTransfer (R1 R2 : ℝ) : FTransferOrbit :=
  let TransferSemiMajorAxis := (R1 + R2) / 2
  let TransferEccentricity := (R2 - R1) / (R2 + R1)
  let V1 := Real.sqrt (GravitationalConstant * EarthMass / R1)
  let V2 := Real.sqrt (GravitationalConstant * EarthMass * (2 / R1 - 1 / TransferSemiMajorAxis))
  let DeltaV1 := V2 - V1
  let TransferTime := Real.pi * Real.sqrt
    (TransferSemiMajorAxis * TransferSemiMajorAxis * TransferSemiMajorAxis /
      (GravitationalConstant * EarthMass))
  ⟨TransferSemiMajorAxis, TransferEccentricity, TransferTime, DeltaV1⟩

/-- The mutable members of `UOrbitalMechanics` that the translated member
functions read and write: classical orbital elements, Cartesian state, and
the time-management fields. -/
structure OrbState where
  SemiMajorAxis : ℝ
  Eccentricity : ℝ
  Inclination : ℝ
  ArgumentOfPeriapsis : ℝ
  LongitudeOfAscendingNode : ℝ
  TrueAnomaly : ℝ
  CurrentPosition : Vec3
  CurrentVelocity : Vec3
  CurrentAcceleration : Vec3
  SimulationTime : ℝ
  TimeStep : ℝ
  TimeAcceleration : ℝ

/-- One Newton-Raphson update of `SolveKeplersEquation`:
`E - F/FPrime` with `F = E - e*sin E - M` and `FPrime = 1 - e*cos E`. -/
def KeplerStep (MeanAnomaly Eccentricity E : ℝ) : ℝ :=
  E - (E - Eccentricity * Real.sin E - MeanAnomaly) / (1 - Eccentricity * Real.cos E)

/-- The loop of `SolveKeplersEquation`: at each of the remaining iterations
the residual is tested against the tolerance `1e-6` before the update, and
the current iterate is returned as soon as the test passes; when the fuel
runs out the current iterate is returned unchecked. -/
def KeplerIter (MeanAnomaly Eccentricity : ℝ) : ℕ → ℝ → ℝ
  | 0, E => E
  | n + 1, E =>
    if |E - Eccentricity * Real.sin E - MeanAnomaly| < 1e-6 then E
    else KeplerIter MeanAnomaly Eccentricity n (KeplerStep MeanAnomaly Eccentricity E)

/-- `UOrbitalMechanics::SolveKeplersEquation`: Newton-Raphson with initial
guess `E = MeanAnomaly` and `MaxIterations = 10`. -/
def SolveKeplersEquation (MeanAnomaly Eccentricity : ℝ) : ℝ :=
  KeplerIter MeanAnomaly Eccentricity 10 MeanAnomaly

/-- `UOrbitalMechanics::TransformOrbitalToWorld`: rotation about Z by the
longitude of the ascending node, then about X by the inclination, then about
Z by the argument of periapsis, exactly in the source's order. -/
def TransformOrbitalToWorld (s : OrbState) (OrbitalVector : Vec3) : Vec3 :=
  let CosOmega := Real.cos s.LongitudeOfAscendingNode
  let SinOmega := Real.sin s.LongitudeOfAscendingNode
  let T1 : Vec3 := ⟨OrbitalVector.x * CosOmega - OrbitalVector.y * SinOmega,
                    OrbitalVector.x * SinOmega + OrbitalVector.y * CosOmega,
                    OrbitalVector.z⟩
  let CosI := Real.cos s.Inclination
  let SinI := Real.sin s.Inclination
  let T2 : Vec3 := ⟨T1.x, T1.y * CosI - T1.z * SinI, T1.y * SinI + T1.z * CosI⟩
  let CosW := Real.cos s.ArgumentOfPeriapsis
  let SinW := Real.sin s.ArgumentOfPeriapsis
  ⟨T2.x * CosW - T2.y * SinW, T2.x * SinW + T2.y * CosW, T2.z⟩

/-- `UOrbitalMechanics::UpdateEllipticalOrbit`: recomputes the mean anomaly
from the absolute simulation time, solves Kepler's equation, derives the true
anomaly, radius, in-plane position and velocity, and writes the transformed
results back into the state. -/
def UpdateEllipticalOrbit (s : OrbState) : OrbState :=
  let MeanMotion := Real.sqrt (GravitationalConstant * EarthMass /
    (s.SemiMajorAxis * s.SemiMajorAxis * s.SemiMajorAxis))
  let MeanAnomaly := MeanMotion * s.SimulationTime
  let EccentricAnomaly := SolveKeplersEquation MeanAnomaly s.Eccentricity
  let nu := 2 * Real.arctan (Real.sqrt ((1 + s.Eccentricity) / (1 - s.Eccentricity)) *
    Real.tan (EccentricAnomaly / 2))
  let Radius := s.SemiMajorAxis * (1 - s.Eccentricity * s.Eccentricity) /
    (1 + s.Eccentricity * Real.cos nu)
  let OrbitalPosition : Vec3 := ⟨Radius * Real.cos nu, Radius * Real.sin nu, 0⟩
  let NewPosition := TransformOrbitalToWorld s OrbitalPosition
  let AngularVelocity := MeanMotion * (1 + s.Eccentricity * Real.cos nu)
  let OrbitalVelocity : Vec3 := ⟨-AngularVelocity * Radius * Real.sin nu,
    AngularVelocity * Radius * Real.cos nu, 0⟩
  let NewVelocity := TransformOrbitalToWorld s OrbitalVelocity
  { s with TrueAnomaly := nu, CurrentPosition := NewPosition, CurrentVelocity := NewVelocity }

/-- `UOrbitalMechanics::UpdateOrbitalPosition`: dispatches on the eccentricity.
For `Eccentricity < 1` it performs the elliptical update; the hyperbolic
(`e > 1`) and parabolic (`e = 1`) branches of the source only emit a log
message and change nothing, so here they return the state unchanged. -/
def UpdateOrbitalPosition (s : OrbState) : OrbState :=
  if s.Eccentricity < 1 then UpdateEllipticalOrbit s
  else if 1 < s.Eccentricity then s
  else s

/-- `UOrbitalMechanics::UpdatePhysics`: one physics tick. The step used is
`DeltaTime = TimeStep * TimeAcceleration`; the velocity is updated first,
the position is then updated from the already-updated velocity, and the
accumulated acceleration is reset to zero. -/
def UpdatePhysics (s : OrbState) : OrbState :=
  let DeltaTime := s.TimeStep * s.TimeAcceleration
  let NewVelocity := s.CurrentVelocity + s.CurrentAcceleration.scale DeltaTime
  let NewPosition := s.CurrentPosition + NewVelocity.scale DeltaTime
  { s with CurrentVelocity := NewVelocity, CurrentPosition := NewPosition,
           CurrentAcceleration := Vec3.zero }

/-- `FMath::Clamp`. -/
def FMathClamp (X Mn Mx : ℝ) : ℝ :=
  if X < Mn then Mn else if Mx < X then Mx else X

/-- `UOrbitalMechanics::SetTimeAcceleration`: clamps the requested factor to
`[0.1, 1000]`, stores it, and re-registers the physics timer with period
`TimeStep / TimeAcceleration`; the returned real is that new timer period. -/
def SetTimeAcceleration (s : OrbState) (Acceleration : ℝ) : OrbState × ℝ :=
  let TA := FMathClamp Acceleration 0.1 1000
  ({ s with TimeAcceleration := TA }, s.TimeStep / TA)

/-- The four event conditions tested by `UOrbitalMechanics::CheckOrbitalEvents`;
a field holds exactly when the corresponding delegate is broadcast on that
tick. -/
structure OrbitalEvents where
  PeriapsisReached : Prop
  ApoapsisReached : Prop
  AtmosphericEntry : Prop
  EscapeVelocityReached : Prop

/-- `UOrbitalMechanics::CheckOrbitalEvents`: periapsis and apoapsis proximity
(each guarded by `Eccentricity > 0` and a 1 km tolerance), atmospheric entry
below 100 km altitude, and exceeding escape velocity. -/
def CheckOrbitalEvents (s : OrbState) : OrbitalEvents :=
  let CurrentRadius := s.CurrentPosition.size
  let PeriapsisDistance := s.SemiMajorAxis * (1 - s.Eccentricity)
  let ApoapsisDistance := s.SemiMajorAxis * (1 + s.Eccentricity)
  let EscapeVelocity := Real.sqrt (2 * GravitationalConstant * EarthMass / CurrentRadius)
  { PeriapsisReached := 0 < s.Eccentricity ∧ |CurrentRadius - PeriapsisDistance| < 1000,
    ApoapsisReached := 0 < s.Eccentricity ∧ |CurrentRadius - ApoapsisDistance| < 1000,
    AtmosphericEntry := CurrentRadius < EarthRadius + 100000,
    EscapeVelocityReached := EscapeVelocity < s.CurrentVelocity.size }

/-- `UOrbitalMechanics::CalculateAtmosphericDensity`: the three-band
piecewise model (power law below 11 km, exponential 11-20 km, exponential
with scale height 7400 m above 20 km), with sea-level density below zero
altitude. -/
def CalculateAtmosphericDensity (Altitude : ℝ) : ℝ :=
  if Altitude < 0 then 1.225
  else if Altitude < 11000 then 1.225 * (1 - 0.0065 * Altitude / 288.15) ^ (4.256 : ℝ)
  else if Altitude < 20000 then 0.3639 * Real.exp (-(Altitude - 11000) / 6341.62)
  else 0.088 * Real.exp (-(Altitude - 20000) / 7400)

/-- The drag contribution that `UOrbitalMechanics::ApplyAtmosphericDrag`
adds to `CurrentAcceleration`: evaluated from the altitude
`CurrentPosition.Size() - EarthRadius`, guarded by the density being
positive, with `DragCoefficient = 2`, `CrossSectionalArea = 10` and a
1000 kg spacecraft mass, and quadratic in the velocity magnitude. -/
def DragAcceleration (CurrentPosition CurrentVelocity : Vec3) : Vec3 :=
  let Altitude := CurrentPosition.size - EarthRadius
  let AtmosphericDensity := CalculateAtmosphericDensity Altitude
  if 0 < AtmosphericDensity then
    let DragCoefficient : ℝ := 2
    let CrossSectionalArea : ℝ := 10
    let VelocityMagnitude := CurrentVelocity.size
    let DragForce := 0.5 * AtmosphericDensity * DragCoefficient * CrossSectionalArea *
      VelocityMagnitude * VelocityMagnitude
    (CurrentVelocity.getSafeNormal.neg).scale (DragForce / 1000)
  else Vec3.zero

/-- The drag acceleration exactly as the specification words it:
`-0.5 * rho * Cd * Area * |v| * unit(v) / mass`, linear rather than quadratic
in the velocity magnitude. -/
def SpecDragAcceleration (CurrentPosition CurrentVelocity : Vec3) : Vec3 :=
  let Altitude := CurrentPosition.size - EarthRadius
  let AtmosphericDensity := CalculateAtmosphericDensity Altitude
  (CurrentVelocity.getSafeNormal.neg).scale
    (0.5 * AtmosphericDensity * 2 * 10 * CurrentVelocity.size / 1000)

/-- `FMath::Atan2` (the standard two-argument arctangent, range
`(-pi, pi]`). -/
def atan2 (Y X : ℝ) : ℝ :=
  if 0 < X then Real.arctan (Y / X)
  else if X < 0 then
    (if 0 ≤ Y then Real.arctan (Y / X) + Real.pi else Real.arctan (Y / X) - Real.pi)
  else (if 0 < Y then Real.pi / 2 else if Y < 0 then -(Real.pi / 2) else 0)

/-- `UOrbitalMechanics::CalculateOrbitalElements` together with the
`CalculateRemainingOrbitalElements` call it makes: recomputes eccentricity,
semi-major axis and inclination unconditionally, but writes the longitude of
the ascending node only when `|N| > 0`, the argument of periapsis only when
`|N| > 0` and the eccentricity is positive, and the true anomaly only when
the eccentricity is positive - otherwise each keeps its previous member
value. -/
def CalculateOrbitalElements (s : OrbState) : OrbState :=
  let R := s.CurrentPosition
  let V := s.CurrentVelocity
  let H := Vec3.cross R V
  let E := (Vec3.cross V H).div (GravitationalConstant * EarthMass) - R.getSafeNormal
  let NewEccentricity := E.size
  let Energy := V.sizeSquared / 2 - GravitationalConstant * EarthMass / R.size
  let NewSemiMajorAxis := -(GravitationalConstant * EarthMass) / (2 * Energy)
  let K : Vec3 := ⟨0, 0, 1⟩
  let NewInclination := Real.arccos (Vec3.dot H.getSafeNormal K)
  let N := Vec3.cross K H
  let NewNode := if 0 < N.size then atan2 N.y N.x else s.LongitudeOfAscendingNode
  let NewArgPeriapsis := if 0 < N.size ∧ 0 < NewEccentricity then
      (if E.z < 0 then
        2 * Real.pi - Real.arccos (Vec3.dot N.getSafeNormal E.getSafeNormal)
      else Real.arccos (Vec3.dot N.getSafeNormal E.getSafeNormal))
    else s.ArgumentOfPeriapsis
  let NewTrueAnomaly := if 0 < NewEccentricity then
      atan2 (Vec3.dot (Vec3.cross E.getSafeNormal R.getSafeNormal) H.getSafeNormal)
        (Vec3.dot E.getSafeNormal R.getSafeNormal)
    else s.TrueAnomaly
  { s with Eccentricity := NewEccentricity, SemiMajorAxis := NewSemiMajorAxis,
           Inclination := NewInclination, LongitudeOfAscendingNode := NewNode,
           ArgumentOfPeriapsis := NewArgPeriapsis, TrueAnomaly := NewTrueAnomaly }

/-- A concrete state used to exhibit the time-acceleration defect: zero
velocity, unit acceleration along x, the default 0.016 s timestep. -/
def timeAccelProbeState : OrbState :=
  ⟨7000000, 0, 0, 0, 0, 0, ⟨7000000, 0, 0⟩, Vec3.zero, ⟨1, 0, 0⟩, 0, 0.016, 1⟩

/-- A concrete circular state whose radius equals its semi-major axis, so
both apsis proximity tests would pass were they not guarded by a strict
positivity test on the eccentricity. -/
def circularProbeState : OrbState :=
  ⟨7000000, 0, 0, 0, 0, 0, ⟨7000000, 0, 0⟩, ⟨0, 7546, 0⟩, Vec3.zero, 0, 0.016, 1⟩

/-- A concrete elliptical probe state for the periodicity witness. -/
def periodicityProbeState : OrbState :=
  ⟨7000000, 1 / 10, 0, 0, 0, 0, ⟨7000000, 0, 0⟩, ⟨0, 7500, 0⟩, Vec3.zero, 0, 0.016, 1⟩

/-- A concrete elliptical state (a = 1 m, e = 1/2, all angles zero) at
simulated time 0, on which the elliptical update is exactly evaluable. -/
def visVivaProbeState : OrbState :=
  ⟨1, 1 / 2, 0, 0, 0, 0, Vec3.zero, Vec3.zero, Vec3.zero, 0, 0.016, 1⟩

/-- A perfectly circular equatorial probe state (radius 1 m, speed
`sqrt(mu)`) whose previous longitude of ascending node and argument of
periapsis are both 1 rather than 0. -/
def degenerateProbeState : OrbState :=
  ⟨1, 0, 0, 1, 1, 0, ⟨1, 0, 0⟩,
    ⟨0, Real.sqrt (GravitationalConstant * EarthMass), 0⟩, Vec3.zero, 0, 0.016, 1⟩

theorem Vec3.add_def (a b : Vec3) : a + b = ⟨a.x + b.x, a.y + b.y, a.z + b.z⟩ := rfl

theorem Vec3.sub_def (a b : Vec3) : a - b = ⟨a.x - b.x, a.y - b.y, a.z - b.z⟩ := rfl

theorem Vec3.zero_size : Vec3.zero.size = 0 := by
  unfold Vec3.zero Vec3.size Vec3.sizeSquared
  rw [show (0 * 0 + 0 * 0 + 0 * 0 : ℝ) = 0 by norm_num, Real.sqrt_zero]

theorem muEarth_pos : 0 < muEarth := by
  unfold muEarth GravitationalConstant EarthMass; norm_num

/-- C1 (counterexample): at current radius `r1 = 2` and target radius
`r2 = 1` the planner's eccentricity is `(1 - 2)/(1 + 2) = -1/3`, which is
negative and differs from the claimed `|r2 - r1|/(r2 + r1) = 1/3`: the source
applies no absolute value. -/
theorem C1_transfer_ecc_counterexample :
    (CalculateOrbitalTransfer 2 1).Eccentricity < 0 ∧
    (CalculateOrbitalTransfer 2 1).Eccentricity ≠ |(1 : ℝ) - 2| / (1 + 2) := by
  unfold CalculateOrbitalTransfer
  norm_num

/-- C1 (amended): for positive radii `r1` and `r2`, the planner returns a
`TransferOrbit` with `semiMajorAxis = (r1+r2)/2`,
`eccentricity = (r2-r1)/(r2+r1)` (signed, negative when `r2 < r1`),
`deltaV = sqrt(mu*(2/r1 - 2/(r1+r2))) - sqrt(mu/r1)` (first burn only) and
`transferTime = pi * sqrt(((r1+r2)/2)^3/mu)`. -/
theorem C1_transfer_planner (R1 R2 : ℝ) (h1 : 0 < R1) (h2 : 0 < R2) :
    (CalculateOrbitalTransfer R1 R2).SemiMajorAxis = (R1 + R2) / 2 ∧
    (CalculateOrbitalTransfer R1 R2).Eccentricity = (R2 - R1) / (R2 + R1) ∧
    (CalculateOrbitalTransfer R1 R2).DeltaV =
      Real.sqrt (muEarth * (2 / R1 - 2 / (R1 + R2))) - Real.sqrt (muEarth / R1) ∧
    (CalculateOrbitalTransfer R1 R2).TransferTime =
      Real.pi * Real.sqrt (((R1 + R2) / 2) ^ 3 / muEarth) := by
  unfold CalculateOrbitalTransfer muEarth
  dsimp only
  refine ⟨rfl, rfl, ?_, ?_⟩
  · rw [one_div_div]
  · have h3 : (R1 + R2) / 2 * ((R1 + R2) / 2) * ((R1 + R2) / 2) = ((R1 + R2) / 2) ^ 3 := by
      ring
    rw [h3]

/-- C1 (witness): the amended transfer-planner theorem applied at the
concrete radii `r1 = 1`, `r2 = 2`. -/
theorem C1_transfer_planner_witness :
    (0 : ℝ) < 1 ∧ (0 : ℝ) < 2 ∧
    (CalculateOrbitalTransfer 1 2).Eccentricity = ((2 : ℝ) - 1) / (2 + 1) :=
  ⟨by norm_num, by norm_num, (C1_transfer_planner 1 2 (by norm_num) (by norm_num)).2.1⟩

/-- C2: for every state in the hyperbolic or parabolic regime
(`Eccentricity >= 1`), the propagation step returns the state completely
unchanged - position, velocity and true anomaly included - and its type
offers no error or "unsupported regime" channel, so the failure demanded by
the claim is not reported to the caller. -/
theorem C2_unsupported_regime_silent_noop (s : OrbState)
    (h : 1 ≤ s.Eccentricity) : UpdateOrbitalPosition s = s := by
  unfold UpdateOrbitalPosition
  rcases lt_or_eq_of_le h with hgt | heq
  · rw [if_neg (by linarith), if_pos hgt]
  · rw [if_neg (by linarith), if_neg (by linarith)]

/-- C2 (witness): a concrete hyperbolic state with eccentricity 2 passes
through the propagation step untouched. -/
theorem C2_unsupported_regime_silent_noop_witness :
    (1 : ℝ) ≤ 2 ∧ UpdateOrbitalPosition
      ⟨10000000, 2, 0, 0, 0, 0, ⟨10000000, 0, 0⟩, ⟨0, 9000, 0⟩, Vec3.zero, 0, 0.016, 1⟩ =
      ⟨10000000, 2, 0, 0, 0, 0, ⟨10000000, 0, 0⟩, ⟨0, 9000, 0⟩, Vec3.zero, 0, 0.016, 1⟩ :=
  ⟨by norm_num,
    C2_unsupported_regime_silent_noop
      ⟨10000000, 2, 0, 0, 0, 0, ⟨10000000, 0, 0⟩, ⟨0, 9000, 0⟩, Vec3.zero, 0, 0.016, 1⟩
      (by norm_num)⟩

/-- C8: each physics tick is exactly one semi-implicit Euler step with step
`h = TimeStep * TimeAcceleration`: the new velocity is the old velocity plus
`acceleration * h`, the new position is the old position plus the
already-updated velocity times `h`, and the accumulated acceleration is reset
to zero, so it never carries over to the next tick. -/
theorem C8_semi_implicit_euler_step (s : OrbState) :
    (UpdatePhysics s).CurrentVelocity =
      s.CurrentVelocity + s.CurrentAcceleration.scale (s.TimeStep * s.TimeAcceleration) ∧
    (UpdatePhysics s).CurrentPosition =
      s.CurrentPosition + ((UpdatePhysics s).CurrentVelocity).scale
        (s.TimeStep * s.TimeAcceleration) ∧
    (UpdatePhysics s).CurrentAcceleration = Vec3.zero :=
  ⟨rfl, rfl, rfl⟩

/-- C7: setting the time-acceleration factor to 10 both reschedules
the tick period to `TimeStep / 10 = 0.0016 s` and changes the integration
step used inside the next tick to `TimeStep * 10 = 0.16 s`: the per-tick
velocity update becomes `a * 0.16` instead of the claimed
time-acceleration-independent `a * TimeStep = a * 0.016`. -/
theorem C7_time_acceleration_rescales_step :
    (SetTimeAcceleration timeAccelProbeState 10).2 = 0.0016 ∧
    (UpdatePhysics (SetTimeAcceleration timeAccelProbeState 10).1).CurrentVelocity.x = 0.16 ∧
    (UpdatePhysics timeAccelProbeState).CurrentVelocity.x = 0.016 := by
  refine ⟨?_, ?_, ?_⟩
  · show timeAccelProbeState.TimeStep / FMathClamp 10 0.1 1000 = 0.0016
    unfold timeAccelProbeState FMathClamp
    norm_num
  · show (timeAccelProbeState.CurrentVelocity +
      timeAccelProbeState.CurrentAcceleration.scale
        (timeAccelProbeState.TimeStep * FMathClamp 10 0.1 1000)).x = 0.16
    unfold timeAccelProbeState FMathClamp Vec3.zero Vec3.scale
    norm_num [Vec3.add_def]
  · show (timeAccelProbeState.CurrentVelocity +
      timeAccelProbeState.CurrentAcceleration.scale
        (timeAccelProbeState.TimeStep * timeAccelProbeState.TimeAcceleration)).x = 0.016
    unfold timeAccelProbeState Vec3.zero Vec3.scale
    norm_num [Vec3.add_def]

/-- C10: on a state with eccentricity exactly 0 the per-tick event check
never broadcasts `OnPeriapsisReached` or `OnApoapsisReached`, both detections
being guarded by `Eccentricity > 0.0f`, even when the current radius is
within the 1 km tolerance of the semi-major axis. -/
theorem C10_no_apsis_events_on_circular (s : OrbState) (h : s.Eccentricity = 0) :
    ¬ (CheckOrbitalEvents s).PeriapsisReached ∧ ¬ (CheckOrbitalEvents s).ApoapsisReached := by
  unfold CheckOrbitalEvents
  constructor
  · rintro ⟨hpos, -⟩
    rw [h] at hpos
    exact lt_irrefl 0 hpos
  · rintro ⟨hpos, -⟩
    rw [h] at hpos
    exact lt_irrefl 0 hpos

/-- C10 (witness): the circular-orbit guard theorem applied to a concrete
state with eccentricity 0 whose radius is exactly the semi-major axis. -/
theorem C10_no_apsis_events_on_circular_witness :
    circularProbeState.Eccentricity = 0 ∧
    ¬ (CheckOrbitalEvents circularProbeState).PeriapsisReached ∧
    ¬ (CheckOrbitalEvents circularProbeState).ApoapsisReached :=
  ⟨rfl, C10_no_apsis_events_on_circular circularProbeState rfl⟩

/-- The three-band density model of the source is strictly positive at every
altitude: every band is a positive coefficient times a positive power or
exponential. -/
theorem CalculateAtmosphericDensity_pos (Altitude : ℝ) :
    0 < CalculateAtmosphericDensity Altitude := by
  unfold CalculateAtmosphericDensity
  split_ifs with h1 h2 h3
  · norm_num
  · have hb : (0 : ℝ) < 1 - 0.0065 * Altitude / 288.15 := by
      have hq : 0.0065 * Altitude / 288.15 < 1 := by
        rw [div_lt_one (by norm_num)]
        nlinarith
      linarith
    exact mul_pos (by norm_num) (Real.rpow_pos_of_pos hb _)
  · exact mul_pos (by norm_num) (Real.exp_pos _)
  · exact mul_pos (by norm_num) (Real.exp_pos _)

/-- Closed form of the source's drag contribution: for any velocity that is
zero or above the safe-normal tolerance, the contribution is the velocity
vector scaled by `-(0.5 * rho * Cd * Area * |v|) / 1000`. -/
theorem DragAcceleration_eq (p v : Vec3) (hv : v = Vec3.zero ∨ 1e-8 ≤ v.sizeSquared) :
    DragAcceleration p v = v.scale
      (-(0.5 * CalculateAtmosphericDensity (p.size - EarthRadius) * 2 * 10 * v.size) / 1000) := by
  unfold DragAcceleration
  rw [if_pos (CalculateAtmosphericDensity_pos _)]
  rcases hv with hz | hge
  · subst hz
    unfold Vec3.getSafeNormal Vec3.zero Vec3.sizeSquared Vec3.neg Vec3.scale
    norm_num
  · have hpos : 0 < v.sizeSquared := lt_of_lt_of_le (by norm_num) hge
    have hs : 0 < v.size := Real.sqrt_pos.mpr hpos
    unfold Vec3.getSafeNormal
    rw [if_neg (not_lt.mpr hge)]
    unfold Vec3.neg Vec3.scale
    ext <;> field_simp <;> ring

/-- C6 (amended): the drag contribution is active at every altitude - the
three-band density model is strictly positive, so the `density > 0` guard
always passes - and for any velocity that is zero or of squared magnitude at
least the safe-normal tolerance `1e-8` it equals
`-0.5 * rho(altitude) * Cd * Area * |v|^2 * unit(v) / mass`, i.e. the
velocity vector scaled by `-(0.5 * rho * Cd * Area * |v|) / 1000`,
quadratic in speed, with `rho` the three-band piecewise model. -/
theorem C6_drag_model (p v : Vec3) (hv : v = Vec3.zero ∨ 1e-8 ≤ v.sizeSquared) :
    0 < CalculateAtmosphericDensity (p.size - EarthRadius) ∧
    DragAcceleration p v = v.scale
      (-(0.5 * CalculateAtmosphericDensity (p.size - EarthRadius) * 2 * 10 * v.size) / 1000) :=
  ⟨CalculateAtmosphericDensity_pos _, DragAcceleration_eq p v hv⟩

/-- C6 (witness): the amended drag theorem applied at a concrete state
1000 km above the Earth's surface moving at 2 m/s along x. -/
theorem C6_drag_model_witness :
    ((⟨2, 0, 0⟩ : Vec3) = Vec3.zero ∨ (1e-8 : ℝ) ≤ (⟨2, 0, 0⟩ : Vec3).sizeSquared) ∧
    0 < CalculateAtmosphericDensity ((⟨7371000, 0, 0⟩ : Vec3).size - EarthRadius) :=
  ⟨Or.inr (by unfold Vec3.sizeSquared; norm_num),
    (C6_drag_model ⟨7371000, 0, 0⟩ ⟨2, 0, 0⟩
      (Or.inr (by unfold Vec3.sizeSquared; norm_num))).1⟩

/-- C6 (counterexample): at 1,000,000 km altitude - far above any
conceivable configured atmosphere threshold (the source's only atmospheric
altitude constant is the 100 km entry threshold) - the drag contribution of
a state moving at 2 m/s is not zero, and it also differs from the
specification's formula `-0.5 * rho * Cd * Area * |v| * unit(v) / mass`,
because the source is quadratic in the speed. -/
theorem C6_drag_counterexample :
    (⟨1006371000, 0, 0⟩ : Vec3).size - EarthRadius = 1e9 ∧
    DragAcceleration ⟨1006371000, 0, 0⟩ ⟨2, 0, 0⟩ ≠ Vec3.zero ∧
    DragAcceleration ⟨1006371000, 0, 0⟩ ⟨2, 0, 0⟩ ≠
      SpecDragAcceleration ⟨1006371000, 0, 0⟩ ⟨2, 0, 0⟩ := by
  have hsize : (⟨1006371000, 0, 0⟩ : Vec3).size = 1006371000 := by
    unfold Vec3.size Vec3.sizeSquared
    rw [show (1006371000 * 1006371000 + 0 * 0 + 0 * 0 : ℝ) = 1006371000 ^ 2 by norm_num,
      Real.sqrt_sq (by norm_num)]
  have hvsize : (⟨2, 0, 0⟩ : Vec3).size = 2 := by
    unfold Vec3.size Vec3.sizeSquared
    rw [show (2 * 2 + 0 * 0 + 0 * 0 : ℝ) = 2 ^ 2 by norm_num, Real.sqrt_sq (by norm_num)]
  set rho := CalculateAtmosphericDensity ((⟨1006371000, 0, 0⟩ : Vec3).size - EarthRadius)
    with hrho
  have hρ : 0 < rho := CalculateAtmosphericDensity_pos _
  have hdrag : DragAcceleration ⟨1006371000, 0, 0⟩ ⟨2, 0, 0⟩ =
      (⟨2, 0, 0⟩ : Vec3).scale (-(0.5 * rho * 2 * 10 * 2) / 1000) := by
    rw [DragAcceleration_eq _ _ (Or.inr (by unfold Vec3.sizeSquared; norm_num)), hvsize]
  have hspec : SpecDragAcceleration ⟨1006371000, 0, 0⟩ ⟨2, 0, 0⟩ =
      ((⟨2, 0, 0⟩ : Vec3).getSafeNormal.neg).scale (0.5 * rho * 2 * 10 * 2 / 1000) := by
    unfold SpecDragAcceleration
    rw [hvsize]
  refine ⟨by rw [hsize]; unfold EarthRadius; norm_num, ?_, ?_⟩
  · rw [hdrag]
    intro h
    have hx := congrArg Vec3.x h
    unfold Vec3.scale Vec3.zero at hx
    simp only at hx
    nlinarith
  · rw [hdrag, hspec]
    unfold Vec3.getSafeNormal Vec3.sizeSquared
    rw [if_neg (by norm_num)]
    rw [hvsize]
    unfold Vec3.neg Vec3.scale
    intro h
    have hx := congrArg Vec3.x h
    simp only at hx
    nlinarith

/-- A single Newton update commutes with shifting both the mean anomaly and
the iterate by one full turn. -/
theorem KeplerStep_shift (M e E : ℝ) :
    KeplerStep (M + 2 * Real.pi) e (E + 2 * Real.pi) = KeplerStep M e E + 2 * Real.pi := by
  unfold KeplerStep
  rw [Real.sin_add_two_pi, Real.cos_add_two_pi]
  ring

/-- The whole bounded Newton loop commutes with shifting the mean anomaly and
the starting iterate by one full turn, break test included. -/
theorem KeplerIter_shift (M e : ℝ) (n : ℕ) :
    ∀ E, KeplerIter (M + 2 * Real.pi) e n (E + 2 * Real.pi) =
      KeplerIter M e n E + 2 * Real.pi := by
  induction n with
  | zero => intro E; rfl
  | succ k ih =>
    intro E
    unfold KeplerIter
    rw [Real.sin_add_two_pi,
      show E + 2 * Real.pi - e * Real.sin E - (M + 2 * Real.pi) = E - e * Real.sin E - M by
        ring]
    split_ifs with h
    · rfl
    · rw [KeplerStep_shift]
      exact ih _

/-- `SolveKeplersEquation` is exactly equivariant under a full-turn shift of
its mean-anomaly argument. -/
theorem SolveKeplersEquation_shift (M e : ℝ) :
    SolveKeplersEquation (M + 2 * Real.pi) e = SolveKeplersEquation M e + 2 * Real.pi := by
  unfold SolveKeplersEquation
  exact KeplerIter_shift M e 10 M

theorem TransformOrbitalToWorld_simTime (s : OrbState) (u : ℝ) (v : Vec3) :
    TransformOrbitalToWorld { s with SimulationTime := u } v = TransformOrbitalToWorld s v :=
  rfl

/-- C5: propagating the unperturbed elliptical state at simulated time
`t + T`, where `T = 2*pi*sqrt(a^3/mu)` is the orbital period, produces
exactly the same position and velocity as propagating at time `t`: the mean
anomaly advances by exactly `2*pi`, the Newton solve is equivariant under
that shift, and the derived true anomaly is unchanged because
`tan((E + 2*pi)/2) = tan(E/2)`. -/
theorem C5_periodicity (s : OrbState) (t : ℝ) (ha : 0 < s.SemiMajorAxis)
    (he0 : 0 ≤ s.Eccentricity) (he1 : s.Eccentricity < 1) :
    (UpdateEllipticalOrbit { s with
        SimulationTime := t + 2 * Real.pi * Real.sqrt (s.SemiMajorAxis ^ 3 / muEarth) }).CurrentPosition =
      (UpdateEllipticalOrbit { s with SimulationTime := t }).CurrentPosition ∧
    (UpdateEllipticalOrbit { s with
        SimulationTime := t + 2 * Real.pi * Real.sqrt (s.SemiMajorAxis ^ 3 / muEarth) }).CurrentVelocity =
      (UpdateEllipticalOrbit { s with SimulationTime := t }).CurrentVelocity := by
  have hμ0 : (GravitationalConstant * EarthMass : ℝ) ≠ 0 := by
    unfold GravitationalConstant EarthMass; norm_num
  have ha0 : s.SemiMajorAxis ≠ 0 := ne_of_gt ha
  have hnn : (0 : ℝ) ≤ GravitationalConstant * EarthMass /
      (s.SemiMajorAxis * s.SemiMajorAxis * s.SemiMajorAxis) := by
    apply div_nonneg
    · unfold GravitationalConstant EarthMass; norm_num
    · nlinarith
  have hprod : GravitationalConstant * EarthMass /
      (s.SemiMajorAxis * s.SemiMajorAxis * s.SemiMajorAxis) *
      (s.SemiMajorAxis ^ 3 / muEarth) = 1 := by
    unfold muEarth
    field_simp
    ring
  have hss : Real.sqrt (GravitationalConstant * EarthMass /
      (s.SemiMajorAxis * s.SemiMajorAxis * s.SemiMajorAxis)) *
      Real.sqrt (s.SemiMajorAxis ^ 3 / muEarth) = 1 := by
    rw [← Real.sqrt_mul hnn, hprod, Real.sqrt_one]
  have hM2 : Real.sqrt (GravitationalConstant * EarthMass /
        (s.SemiMajorAxis * s.SemiMajorAxis * s.SemiMajorAxis)) *
        (t + 2 * Real.pi * Real.sqrt (s.SemiMajorAxis ^ 3 / muEarth)) =
      Real.sqrt (GravitationalConstant * EarthMass /
        (s.SemiMajorAxis * s.SemiMajorAxis * s.SemiMajorAxis)) * t + 2 * Real.pi := by
    rw [mul_add, show Real.sqrt (GravitationalConstant * EarthMass /
        (s.SemiMajorAxis * s.SemiMajorAxis * s.SemiMajorAxis)) *
        (2 * Real.pi * Real.sqrt (s.SemiMajorAxis ^ 3 / muEarth)) =
        2 * Real.pi * (Real.sqrt (GravitationalConstant * EarthMass /
          (s.SemiMajorAxis * s.SemiMajorAxis * s.SemiMajorAxis)) *
          Real.sqrt (s.SemiMajorAxis ^ 3 / muEarth)) by ring, hss, mul_one]
  have hE2 : SolveKeplersEquation (Real.sqrt (GravitationalConstant * EarthMass /
        (s.SemiMajorAxis * s.SemiMajorAxis * s.SemiMajorAxis)) *
        (t + 2 * Real.pi * Real.sqrt (s.SemiMajorAxis ^ 3 / muEarth))) s.Eccentricity =
      SolveKeplersEquation (Real.sqrt (GravitationalConstant * EarthMass /
        (s.SemiMajorAxis * s.SemiMajorAxis * s.SemiMajorAxis)) * t) s.Eccentricity +
        2 * Real.pi := by
    rw [hM2]
    exact SolveKeplersEquation_shift _ _
  have htan : Real.tan ((SolveKeplersEquation (Real.sqrt (GravitationalConstant * EarthMass /
        (s.SemiMajorAxis * s.SemiMajorAxis * s.SemiMajorAxis)) * t) s.Eccentricity +
        2 * Real.pi) / 2) =
      Real.tan (SolveKeplersEquation (Real.sqrt (GravitationalConstant * EarthMass /
        (s.SemiMajorAxis * s.SemiMajorAxis * s.SemiMajorAxis)) * t) s.Eccentricity / 2) := by
    rw [show (SolveKeplersEquation (Real.sqrt (GravitationalConstant * EarthMass /
        (s.SemiMajorAxis * s.SemiMajorAxis * s.SemiMajorAxis)) * t) s.Eccentricity +
        2 * Real.pi) / 2 =
        SolveKeplersEquation (Real.sqrt (GravitationalConstant * EarthMass /
          (s.SemiMajorAxis * s.SemiMajorAxis * s.SemiMajorAxis)) * t) s.Eccentricity / 2 +
          Real.pi by ring]
    exact Real.tan_periodic _
  unfold UpdateEllipticalOrbit
  dsimp only
  rw [hE2, htan]
  exact ⟨rfl, rfl⟩

/-- C5 (witness): the periodicity theorem applied to a concrete elliptical
state with semi-major axis 7,000,000 m and eccentricity 1/10 at start time
`t = 0`. -/
theorem C5_periodicity_witness :
    (0 : ℝ) < 7000000 ∧ (0 : ℝ) ≤ 1 / 10 ∧ (1 / 10 : ℝ) < 1 ∧
    (UpdateEllipticalOrbit { periodicityProbeState with
        SimulationTime := 0 + 2 * Real.pi * Real.sqrt ((7000000 : ℝ) ^ 3 / muEarth) }).CurrentPosition =
      (UpdateEllipticalOrbit { periodicityProbeState with
        SimulationTime := 0 }).CurrentPosition :=
  ⟨by norm_num, by norm_num, by norm_num,
    (C5_periodicity periodicityProbeState 0 (by unfold periodicityProbeState; norm_num)
      (by unfold periodicityProbeState; norm_num)
      (by unfold periodicityProbeState; norm_num)).1⟩

theorem KeplerIter_succ (M e : ℝ) (n : ℕ) (E : ℝ) :
    KeplerIter M e (n + 1) E = if |E - e * Real.sin E - M| < 1e-6 then E
      else KeplerIter M e n (KeplerStep M e E) := rfl

/-- At mean anomaly 0 the solver accepts the initial guess immediately and
returns 0. -/
theorem SolveKeplersEquation_zero (e : ℝ) : SolveKeplersEquation 0 e = 0 := by
  unfold SolveKeplersEquation
  rw [show (10 : ℕ) = 9 + 1 from rfl, KeplerIter_succ, if_pos]
  rw [Real.sin_zero]
  norm_num

/-- With all three orientation angles zero the 3-1-3 rotation of
`TransformOrbitalToWorld` is the identity. -/
theorem TransformOrbitalToWorld_id (s : OrbState) (hw : s.LongitudeOfAscendingNode = 0)
    (hi : s.Inclination = 0) (hp : s.ArgumentOfPeriapsis = 0) (v : Vec3) :
    TransformOrbitalToWorld s v = v := by
  unfold TransformOrbitalToWorld
  rw [hw, hi, hp, Real.cos_zero, Real.sin_zero]
  ext <;> dsimp only <;> ring

theorem visVivaProbe_position :
    (UpdateEllipticalOrbit visVivaProbeState).CurrentPosition = ⟨1 / 2, 0, 0⟩ := by
  unfold UpdateEllipticalOrbit visVivaProbeState
  dsimp only
  rw [mul_zero, SolveKeplersEquation_zero, zero_div, Real.tan_zero, mul_zero,
    Real.arctan_zero, mul_zero, Real.cos_zero, Real.sin_zero]
  rw [TransformOrbitalToWorld_id _ rfl rfl rfl]
  ext <;> dsimp only <;> norm_num

theorem visVivaProbe_velocity :
    (UpdateEllipticalOrbit visVivaProbeState).CurrentVelocity =
      ⟨0, Real.sqrt (GravitationalConstant * EarthMass) * (3 / 4), 0⟩ := by
  unfold UpdateEllipticalOrbit visVivaProbeState
  dsimp only
  rw [mul_zero, SolveKeplersEquation_zero, zero_div, Real.tan_zero, mul_zero,
    Real.arctan_zero, mul_zero, Real.cos_zero, Real.sin_zero]
  rw [TransformOrbitalToWorld_id _ rfl rfl rfl]
  rw [show (GravitationalConstant * EarthMass / (1 * 1 * 1) : ℝ) =
    GravitationalConstant * EarthMass by norm_num]
  ext <;> dsimp only <;> ring

/-- C4: the velocity produced by `UpdateEllipticalOrbit` violates the
vis-viva equation. On the concrete state with `a = 1`, `e = 1/2`, all angles
zero, at simulated time 0, the update puts the vehicle at radius `1/2`
(periapsis) with squared speed `(9/16)*mu`, while the vis-viva right-hand
side `mu*(2/r - 1/a)` equals `3*mu` there; the speed therefore differs from
`sqrt(mu*(2/r - 1/a))` by far more than any numerical tolerance (the
source's speed `n*(1 + e*cos nu)*r` is constant along the orbit, which is
wrong for every non-circular ellipse). -/
theorem C4_vis_viva_failure :
    (UpdateEllipticalOrbit visVivaProbeState).CurrentPosition.size = 1 / 2 ∧
    (UpdateEllipticalOrbit visVivaProbeState).CurrentVelocity.size *
      (UpdateEllipticalOrbit visVivaProbeState).CurrentVelocity.size = 9 / 16 * muEarth ∧
    muEarth * (2 / (UpdateEllipticalOrbit visVivaProbeState).CurrentPosition.size -
      1 / visVivaProbeState.SemiMajorAxis) = 3 * muEarth ∧
    (UpdateEllipticalOrbit visVivaProbeState).CurrentVelocity.size ≠
      Real.sqrt (muEarth * (2 / (UpdateEllipticalOrbit visVivaProbeState).CurrentPosition.size -
        1 / visVivaProbeState.SemiMajorAxis)) := by
  have hμ : (0 : ℝ) < muEarth := muEarth_pos
  have hμ' : (0 : ℝ) ≤ GravitationalConstant * EarthMass := by
    have := hμ; unfold muEarth at this; linarith
  have hpos : (UpdateEllipticalOrbit visVivaProbeState).CurrentPosition.size = 1 / 2 := by
    rw [visVivaProbe_position]
    unfold Vec3.size Vec3.sizeSquared
    rw [show (1 / 2 * (1 / 2) + 0 * 0 + 0 * 0 : ℝ) = (1 / 2) ^ 2 by norm_num,
      Real.sqrt_sq (by norm_num)]
  have hvel : (UpdateEllipticalOrbit visVivaProbeState).CurrentVelocity.size =
      Real.sqrt (GravitationalConstant * EarthMass) * (3 / 4) := by
    rw [visVivaProbe_velocity]
    unfold Vec3.size Vec3.sizeSquared
    rw [show (0 * 0 + Real.sqrt (GravitationalConstant * EarthMass) * (3 / 4) *
        (Real.sqrt (GravitationalConstant * EarthMass) * (3 / 4)) + 0 * 0 : ℝ) =
        (Real.sqrt (GravitationalConstant * EarthMass) * (3 / 4)) ^ 2 by ring,
      Real.sqrt_sq (by positivity)]
  have hsq : Real.sqrt (GravitationalConstant * EarthMass) *
      Real.sqrt (GravitationalConstant * EarthMass) = muEarth := by
    rw [Real.mul_self_sqrt hμ']; rfl
  refine ⟨hpos, ?_, ?_, ?_⟩
  · rw [hvel]
    nlinarith [hsq]
  · rw [hpos]
    unfold visVivaProbeState
    norm_num
    ring
  · rw [hvel, hpos]
    unfold visVivaProbeState
    intro h
    have h2 : (Real.sqrt (GravitationalConstant * EarthMass) * (3 / 4)) *
        (Real.sqrt (GravitationalConstant * EarthMass) * (3 / 4)) =
        Real.sqrt (muEarth * (2 / (1 / 2) - 1 / 1)) *
        Real.sqrt (muEarth * (2 / (1 / 2) - 1 / 1)) := by
      rw [← h]
    rw [Real.mul_self_sqrt (by positivity)] at h2
    nlinarith [hsq]

/-- On a perfectly circular (vanishing eccentricity vector), equatorial
(position and velocity in the z = 0 plane), prograde (positive z angular
momentum, above the safe-normal tolerance) state, the conversion computes
eccentricity 0 and inclination 0, and leaves the longitude of the ascending
node, the argument of periapsis and the true anomaly at their previous
member values. -/
theorem CalculateOrbitalElements_circular_equatorial (s : OrbState)
    (hz : s.CurrentPosition.z = 0) (hvz : s.CurrentVelocity.z = 0)
    (hh : 1e-4 ≤ s.CurrentPosition.x * s.CurrentVelocity.y -
      s.CurrentPosition.y * s.CurrentVelocity.x)
    (he : (Vec3.cross s.CurrentVelocity
        (Vec3.cross s.CurrentPosition s.CurrentVelocity)).div
        (GravitationalConstant * EarthMass) - s.CurrentPosition.getSafeNormal = Vec3.zero) :
    CalculateOrbitalElements s = { s with
      Eccentricity := 0,
      SemiMajorAxis := -(GravitationalConstant * EarthMass) /
        (2 * (s.CurrentVelocity.sizeSquared / 2 -
          GravitationalConstant * EarthMass / s.CurrentPosition.size)),
      Inclination := 0 } := by
  set hv := s.CurrentPosition.x * s.CurrentVelocity.y -
    s.CurrentPosition.y * s.CurrentVelocity.x with hvdef
  have hv0 : (0 : ℝ) < hv := lt_of_lt_of_le (by norm_num) hh
  have hvne : hv ≠ 0 := ne_of_gt hv0
  have hH : Vec3.cross s.CurrentPosition s.CurrentVelocity = ⟨0, 0, hv⟩ := by
    unfold Vec3.cross
    ext <;> dsimp only
    · rw [hz, hvz]; ring
    · rw [hz, hvz]; ring
  have he2 : (Vec3.cross s.CurrentVelocity (⟨0, 0, hv⟩ : Vec3)).div
      (GravitationalConstant * EarthMass) - s.CurrentPosition.getSafeNormal = Vec3.zero := by
    rw [← hH]; exact he
  have hss : ((⟨0, 0, hv⟩ : Vec3)).sizeSquared = hv * hv := by
    unfold Vec3.sizeSquared; dsimp only; ring
  have hnormH : (⟨0, 0, hv⟩ : Vec3).getSafeNormal = ⟨0, 0, 1⟩ := by
    unfold Vec3.getSafeNormal
    rw [if_neg (by rw [hss]; push_neg; nlinarith)]
    unfold Vec3.scale Vec3.size
    rw [hss, Real.sqrt_mul_self (le_of_lt hv0)]
    ext <;> dsimp only
    · ring
    · ring
    · field_simp
  have hdot1 : Vec3.dot (⟨0, 0, 1⟩ : Vec3) (⟨0, 0, 1⟩ : Vec3) = 1 := by
    unfold Vec3.dot; norm_num
  have hN : Vec3.cross (⟨0, 0, 1⟩ : Vec3) (⟨0, 0, hv⟩ : Vec3) = ⟨0, 0, 0⟩ := by
    unfold Vec3.cross
    ext <;> dsimp only <;> ring
  have hN0 : ((⟨0, 0, 0⟩ : Vec3)).size = 0 := by
    unfold Vec3.size Vec3.sizeSquared
    rw [show (0 * 0 + 0 * 0 + 0 * 0 : ℝ) = 0 by norm_num, Real.sqrt_zero]
  unfold CalculateOrbitalElements
  dsimp only
  rw [hH, he2, Vec3.zero_size, hnormH, hdot1, Real.arccos_one, hN, hN0]
  rw [if_neg (lt_irrefl 0), if_neg (by norm_num), if_neg (lt_irrefl 0)]

/-- C9 (amended): for every perfectly circular (vanishing eccentricity
vector), equatorial (z = 0 plane), prograde input state, the conversion
computes eccentricity 0 and inclination 0 - both as well-defined reals, no
NaN - but it leaves the longitude of the ascending node, the argument of
periapsis and the true anomaly at their previous member values instead of
setting them to 0; they are 0 only when the component already held 0 (as the
constructor initialises them). -/
theorem C9_degenerate_conversion (s : OrbState)
    (hz : s.CurrentPosition.z = 0) (hvz : s.CurrentVelocity.z = 0)
    (hh : 1e-4 ≤ s.CurrentPosition.x * s.CurrentVelocity.y -
      s.CurrentPosition.y * s.CurrentVelocity.x)
    (he : (Vec3.cross s.CurrentVelocity
        (Vec3.cross s.CurrentPosition s.CurrentVelocity)).div
        (GravitationalConstant * EarthMass) - s.CurrentPosition.getSafeNormal = Vec3.zero) :
    (CalculateOrbitalElements s).Eccentricity = 0 ∧
    (CalculateOrbitalElements s).Inclination = 0 ∧
    (CalculateOrbitalElements s).LongitudeOfAscendingNode = s.LongitudeOfAscendingNode ∧
    (CalculateOrbitalElements s).ArgumentOfPeriapsis = s.ArgumentOfPeriapsis ∧
    (CalculateOrbitalElements s).TrueAnomaly = s.TrueAnomaly := by
  rw [CalculateOrbitalElements_circular_equatorial s hz hvz hh he]
  exact ⟨rfl, rfl, rfl, rfl, rfl⟩

theorem degenerateProbe_hh :
    1e-4 ≤ degenerateProbeState.CurrentPosition.x * degenerateProbeState.CurrentVelocity.y -
      degenerateProbeState.CurrentPosition.y * degenerateProbeState.CurrentVelocity.x := by
  unfold degenerateProbeState
  dsimp only
  rw [show (1 * Real.sqrt (GravitationalConstant * EarthMass) - 0 * 0 : ℝ) =
    Real.sqrt (GravitationalConstant * EarthMass) by ring]
  rw [Real.le_sqrt' (by norm_num)]
  unfold GravitationalConstant EarthMass
  norm_num

theorem degenerateProbe_eccVec :
    (Vec3.cross degenerateProbeState.CurrentVelocity
      (Vec3.cross degenerateProbeState.CurrentPosition
        degenerateProbeState.CurrentVelocity)).div (GravitationalConstant * EarthMass) -
      degenerateProbeState.CurrentPosition.getSafeNormal = Vec3.zero := by
  have hμ : Real.sqrt (GravitationalConstant * EarthMass) *
      Real.sqrt (GravitationalConstant * EarthMass) = GravitationalConstant * EarthMass :=
    Real.mul_self_sqrt (by unfold GravitationalConstant EarthMass; norm_num)
  have hμ0 : (GravitationalConstant * EarthMass : ℝ) ≠ 0 := by
    unfold GravitationalConstant EarthMass; norm_num
  unfold degenerateProbeState Vec3.cross
  dsimp only
  unfold Vec3.getSafeNormal
  rw [if_neg (by unfold Vec3.sizeSquared; dsimp only; norm_num)]
  unfold Vec3.div Vec3.scale Vec3.size Vec3.sizeSquared Vec3.zero
  dsimp only
  rw [Vec3.sub_def]
  ext <;> dsimp only
  · rw [show (1 * 1 + 0 * 0 + 0 * 0 : ℝ) = 1 by norm_num, Real.sqrt_one]
    rw [show (Real.sqrt (GravitationalConstant * EarthMass) *
        (1 * Real.sqrt (GravitationalConstant * EarthMass) - 0 * 0) -
        0 * (0 * 0 - 1 * 0) : ℝ) =
      Real.sqrt (GravitationalConstant * EarthMass) *
        Real.sqrt (GravitationalConstant * EarthMass) by ring, hμ, div_self hμ0]
    norm_num
  · norm_num
  · norm_num

/-- C9 (counterexample): on the perfectly circular, equatorial probe state -
the conversion itself computes eccentricity 0 and inclination 0 for it - the
longitude of the ascending node and the argument of periapsis come out as
the previous member values 1, not as the claimed 0: the source skips the
assignments instead of substituting the default. -/
theorem C9_raan_argperi_counterexample :
    (CalculateOrbitalElements degenerateProbeState).Eccentricity = 0 ∧
    (CalculateOrbitalElements degenerateProbeState).Inclination = 0 ∧
    (CalculateOrbitalElements degenerateProbeState).LongitudeOfAscendingNode ≠ 0 ∧
    (CalculateOrbitalElements degenerateProbeState).ArgumentOfPeriapsis ≠ 0 := by
  rw [CalculateOrbitalElements_circular_equatorial degenerateProbeState rfl rfl
    degenerateProbe_hh degenerateProbe_eccVec]
  refine ⟨rfl, rfl, ?_, ?_⟩
  · show (1 : ℝ) ≠ 0; norm_num
  · show (1 : ℝ) ≠ 0; norm_num

/-- C9 (witness): the amended degenerate-conversion theorem applied to the
concrete circular equatorial probe state. -/
theorem C9_degenerate_conversion_witness :
    degenerateProbeState.CurrentPosition.z = 0 ∧
    (CalculateOrbitalElements degenerateProbeState).Eccentricity = 0 :=
  ⟨rfl, (C9_degenerate_conversion degenerateProbeState rfl rfl
    degenerateProbe_hh degenerateProbe_eccVec).1⟩

/-- C3: at eccentricity `0.99` (inside the claimed range `[0, 0.99]`) and
mean anomaly `pi/25` (inside `[0, 2*pi)`), the solver's break test fails at
the initial guess (the residual there is `0.99*sin(pi/25) ~ 0.124`, far above
the `1e-6` tolerance), and the very first Newton update already overshoots
beyond `2*pi` - outside the whole principal range - because the derivative
`1 - 0.99*cos(pi/25) ~ 0.0178` is tiny; the iteration then wanders chaotically
and the returned tenth iterate has residual around 646, so the solver does
not converge within its cap on this input. -/
theorem C3_kepler_divergence_first_step :
    1e-6 ≤ |Real.pi / 25 - 0.99 * Real.sin (Real.pi / 25) - Real.pi / 25| ∧
    2 * Real.pi < KeplerStep (Real.pi / 25) 0.99 (Real.pi / 25) := by
  have hπl : (3.141592 : ℝ) < Real.pi := Real.pi_gt_d6
  have hπu : Real.pi < 3.141593 := Real.pi_lt_d6
  have hM1 : (0.1256636 : ℝ) < Real.pi / 25 := by linarith
  have hM2 : Real.pi / 25 < 0.1256638 := by linarith
  have hM0 : (0 : ℝ) < Real.pi / 25 := by linarith
  have hMle1 : Real.pi / 25 ≤ 1 := by linarith
  have hsin1 : Real.pi / 25 - (Real.pi / 25) ^ 3 / 4 < Real.sin (Real.pi / 25) :=
    Real.sin_gt_sub_cube hM0 hMle1
  have hM3 : (Real.pi / 25) ^ 3 < 0.001985 :=
    lt_of_lt_of_le (pow_lt_pow_left hM2 hM0.le (by norm_num)) (by norm_num)
  have hsin_lb : (0.125167 : ℝ) < Real.sin (Real.pi / 25) := by linarith
  have hcos1 : 1 - (Real.pi / 25) ^ 2 / 2 < Real.cos (Real.pi / 25) :=
    Real.one_sub_sq_div_two_lt_cos (ne_of_gt hM0)
  have hMsq : (Real.pi / 25) ^ 2 < 0.0157914 :=
    lt_of_lt_of_le (pow_lt_pow_left hM2 hM0.le (by norm_num)) (by norm_num)
  have hcos_lb : (0.992104 : ℝ) < Real.cos (Real.pi / 25) := by linarith
  have hcos_ub : Real.cos (Real.pi / 25) ≤ 1 := Real.cos_le_one _
  have habs : Real.pi / 25 - 0.99 * Real.sin (Real.pi / 25) - Real.pi / 25 =
      -(0.99 * Real.sin (Real.pi / 25)) := by ring
  have hden_pos : (0 : ℝ) < 1 - 0.99 * Real.cos (Real.pi / 25) := by linarith
  constructor
  · rw [habs, abs_neg, abs_of_pos (by nlinarith)]
    nlinarith
  · unfold KeplerStep
    rw [habs, neg_div, sub_neg_eq_add]
    have hratio : (6.9 : ℝ) < 0.99 * Real.sin (Real.pi / 25) /
        (1 - 0.99 * Real.cos (Real.pi / 25)) := by
      rw [lt_div_iff hden_pos]
      nlinarith
    linarith
